import Mathlib

/-!
Verification of the OptionsAnalyzer core: a shallow embedding of
`src/utils/options_calculator.py` and `src/utils/data_fetcher.py`,
with theorems settling the specified behavioural claims.

Modelling conventions:
* Python floats are modelled as rationals (`ℚ`); Python `round(x, 2)` is
  `round2` (round to nearest at two decimals).
* `datetime` instants are modelled as integer microseconds on the proleptic
  Gregorian timeline used by Python's `date.toordinal` (day 1 = 0001-01-01);
  `datetime.now()` becomes an explicit parameter.
* pandas `DataFrame`s become lists of records; `NaN`-able columns become
  `Option ℚ` fields.
* The `yfinance` provider is modelled as a function from attempt index to
  either raised-exception text or returned data (`Except String α`), so the
  retry loops become pure recursions; the `time.sleep` and progress-bar side
  effects of the loops are reified as output traces.
-/

/-- Python `round(q, 2)`: round to nearest hundredth. -/
def round2 (q : ℚ) : ℚ := (round (q * 100) : ℚ) / 100

/-- Embedding of `calculate_annualized_roi` (options_calculator.py lines 4-25):
guard non-positive inputs to 0, else `round((premium/strike)*100*365/days, 2)`. -/
def calculate_annualized_roi (premium strike_price : ℚ) (days_to_expiry : ℤ) : ℚ :=
  if premium ≤ 0 ∨ strike_price ≤ 0 ∨ days_to_expiry ≤ 0 then 0
  else round2 (premium / strike_price * 100 * 365 / (days_to_expiry : ℚ))

/-- Numeric value of an ASCII digit character. -/
def digitVal (c : Char) : ℕ := c.toNat - 48

/-- CPython `_strptime` directive `%Y`: exactly four digits. -/
def parseYear : List Char → Option (ℕ × List Char)
  | a :: b :: c :: d :: rest =>
    if a.isDigit ∧ b.isDigit ∧ c.isDigit ∧ d.isDigit then
      some (1000 * digitVal a + 100 * digitVal b + 10 * digitVal c + digitVal d, rest)
    else none
  | _ => none

/-- CPython `_strptime` directive `%m`, regex `1[0-2]|0[1-9]|[1-9]` with
leftmost-alternative preference (a failed two-character alternative starting
with `1` falls back to the single digit `1`). -/
def parseMonth : List Char → Option (ℕ × List Char)
  | '1' :: rest =>
    (match rest with
     | c :: rest2 => if '0' ≤ c ∧ c ≤ '2' then some (10 + digitVal c, rest2) else some (1, rest)
     | [] => some (1, []))
  | '0' :: c :: rest => if '1' ≤ c ∧ c ≤ '9' then some (digitVal c, rest) else none
  | c :: rest => if '2' ≤ c ∧ c ≤ '9' then some (digitVal c, rest) else none
  | [] => none

/-- CPython `_strptime` directive `%d`, regex `3[01]|[12][0-9]|0[1-9]|[1-9]`
with leftmost-alternative preference. -/
def parseDay : List Char → Option (ℕ × List Char)
  | '3' :: rest =>
    (match rest with
     | c :: rest2 => if '0' ≤ c ∧ c ≤ '1' then some (30 + digitVal c, rest2) else some (3, rest)
     | [] => some (3, []))
  | c :: rest =>
    if '1' ≤ c ∧ c ≤ '2' then
      (match rest with
       | c2 :: rest2 =>
         if c2.isDigit then some (10 * digitVal c + digitVal c2, rest2)
         else some (digitVal c, rest)
       | [] => some (digitVal c, []))
    else if c = '0' then
      (match rest with
       | c2 :: rest2 => if '1' ≤ c2 ∧ c2 ≤ '9' then some (digitVal c2, rest2) else none
       | [] => none)
    else if '4' ≤ c ∧ c ≤ '9' then some (digitVal c, rest)
    else none
  | [] => none

/-- Gregorian leap-year rule, as validated by `datetime`. -/
def isLeapYear (y : ℕ) : Bool := y % 4 = 0 ∧ (y % 100 ≠ 0 ∨ y % 400 = 0)

/-- Length of a month, as validated by the `datetime` constructor. -/
def daysInMonth (y m : ℕ) : ℕ :=
  if m = 2 then (if isLeapYear y then 29 else 28)
  else if m = 4 ∨ m = 6 ∨ m = 9 ∨ m = 11 then 30
  else 31

/-- Embedding of `datetime.strptime(s, yyyy-mm-dd format)`: match the whole
string against `%Y-%m-%d` (rejecting unconverted trailing data) and validate
the resulting calendar date as the `datetime` constructor does. -/
def strptimeYmd (s : String) : Option (ℕ × ℕ × ℕ) :=
  match parseYear s.data with
  | some (y, '-' :: rest1) =>
    (match parseMonth rest1 with
     | some (m, '-' :: rest2) =>
       (match parseDay rest2 with
        | some (d, []) =>
          if 1 ≤ y ∧ 1 ≤ d ∧ d ≤ daysInMonth y m then some (y, m, d) else none
        | _ => none)
     | _ => none)
  | _ => none

/-- Days before the first of month `m` in year `y`. -/
def daysBeforeMonth (y m : ℕ) : ℕ :=
  let base := [0, 31, 59, 90, 120, 151, 181, 212, 243, 273, 304, 334].getD (m - 1) 0
  if 3 ≤ m ∧ isLeapYear y then base + 1 else base

/-- Python `date(y, m, d).toordinal()`: proleptic Gregorian ordinal,
with 0001-01-01 mapped to 1. -/
def toOrdinal (y m d : ℕ) : ℕ :=
  365 * (y - 1) + (y - 1) / 4 - (y - 1) / 100 + (y - 1) / 400 + daysBeforeMonth y m + d

/-- Microseconds per day, the resolution of `datetime` arithmetic. -/
def usPerDay : ℤ := 86400000000

/-- Embedding of `calculate_days_to_expiry` (options_calculator.py lines
27-42). `now_us` is `datetime.now()` in microseconds since the epoch of
`toOrdinal`; a parsed expiry denotes midnight of its day, and `timedelta.days`
is floor division of the difference by one day. -/
def calculate_days_to_expiry (expiry_date : String) (now_us : ℤ) : ℤ :=
  match strptimeYmd expiry_date with
  | none => 0
  | some (y, m, d) => max (Int.fdiv ((toOrdinal y m d : ℤ) * usPerDay - now_us) usPerDay) 0

/-- One row of the options chain as consumed by `process_options_data`. -/
structure OptionRow where
  optionType : String
  strike : ℚ
  expirationDate : String
  bid : ℚ
  ask : ℚ
  volume : ℚ
  openInterest : ℚ
  impliedVolatility : ℚ
deriving DecidableEq

/-- One emitted analytical record (the dict appended to `results`). -/
structure AnalyticalRecord where
  strikePrice : ℚ
  expiryDate : String
  premium : ℚ
  bid : ℚ
  ask : ℚ
  daysToExpiry : ℤ
  volume : ℚ
  openInterest : ℚ
  impliedVolatilityPercent : ℚ
  annualizedRoi : ℚ
  optionType : String
deriving DecidableEq

/-- The moneyness skip condition of `process_options_data` (lines 57-59):
skip PUTs above the current price and CALLs below it. -/
def moneySkip (row : OptionRow) (current_stock_price : ℚ) : Bool :=
  decide ((row.optionType = "PUT" ∧ row.strike > current_stock_price) ∨
          (row.optionType = "CALL" ∧ row.strike < current_stock_price))

/-- Body of the per-row loop of `process_options_data` (lines 54-101):
`none` models `continue`, `some` models appending a record. -/
def processRow (current_stock_price : ℚ) (now_us : ℤ) (row : OptionRow) :
    Option AnalyticalRecord :=
  if moneySkip row current_stock_price then none
  else if calculate_days_to_expiry row.expirationDate now_us = 0 then none
  else if row.bid ≤ 0 ∨ row.ask ≤ 0 then none
  else if min row.bid row.ask ≤ 0 then none
  else if 0 < calculate_annualized_roi (min row.bid row.ask) row.strike
              (calculate_days_to_expiry row.expirationDate now_us) then
    some { strikePrice := row.strike
           expiryDate := row.expirationDate
           premium := min row.bid row.ask
           bid := row.bid
           ask := row.ask
           daysToExpiry := calculate_days_to_expiry row.expirationDate now_us
           volume := row.volume
           openInterest := row.openInterest
           impliedVolatilityPercent := round2 (row.impliedVolatility * 100)
           annualizedRoi := calculate_annualized_roi (min row.bid row.ask) row.strike
             (calculate_days_to_expiry row.expirationDate now_us)
           optionType := row.optionType }
  else none

/-- Embedding of `process_options_data` (options_calculator.py lines 44-104).
`none` models a `None` options chain, `some rows` a DataFrame with the given
rows; `now_us` is the current moment used by the days-to-expiry computation. -/
def process_options_data (options_chain : Option (List OptionRow))
    (current_stock_price : ℚ) (now_us : ℤ) : List AnalyticalRecord :=
  match options_chain with
  | none => []
  | some rows => rows.filterMap (processRow current_stock_price now_us)

/-! The market-data fetcher, `src/utils/data_fetcher.py`. -/

/-- The `info` dict of a ticker as consumed by `get_stock_info`; `none` in a
price field models an absent key (`info.get` returning `None`). -/
structure InfoDict where
  regularMarketPrice : Option ℚ
  currentPrice : Option ℚ
  previousClose : Option ℚ
  longName : Option String
  currency : Option String
  marketCap : Option ℚ
deriving DecidableEq

/-- The `Quote`-shaped success dict returned by `get_stock_info`. -/
structure Quote where
  name : String
  current_price : ℚ
  currency : String
  market_cap : ℚ
deriving DecidableEq

/-- Result of a fetcher call: a success value or the structured
`{error, details}` dict; no exception ever escapes. -/
inductive FetchResult (α : Type) where
  | ok (value : α)
  | err (error details : String)
deriving DecidableEq

/-- Python truthiness of an optional number: `None`, `0` and `0.0` are falsy. -/
def truthyQ : Option ℚ → Bool
  | none => false
  | some x => decide (x ≠ 0)

/-- The price-fallback loop of `get_stock_info` (lines 53-61): its final
`current_price` is the first truthy source, or the raw `previousClose` value
when no source is truthy (the loop writes each candidate before testing it). -/
def pickPrice (info : InfoDict) : Option ℚ :=
  if truthyQ info.regularMarketPrice then info.regularMarketPrice
  else if truthyQ info.currentPrice then info.currentPrice
  else info.previousClose

/-- Successful-attempt body of `get_stock_info` (lines 44-73): the code run
when the provider raises no exception, given the fetched `info`. -/
def get_stock_info_body (ticker_symbol : String) (info : Option InfoDict) :
    FetchResult Quote :=
  match info with
  | none =>
    .err ("No information found for ticker " ++ ticker_symbol)
      ("The ticker \x27" ++ ticker_symbol ++ "\x27 could not be found or returned no data.")
  | some i =>
    let current_price := pickPrice i
    if truthyQ current_price = false then
      .err ("Warning: Could not fetch price for " ++ ticker_symbol)
        "Price data is not available for this ticker symbol."
    else
      .ok { name := i.longName.getD "N/A"
            current_price := current_price.getD 0
            currency := i.currency.getD "USD"
            market_cap := i.marketCap.getD 0 }

/-- Python `needle in hay` on the underlying character lists. -/
def isSubOf (needle : List Char) : List Char → Bool
  | [] => needle.isEmpty
  | c :: rest => needle.isPrefixOf (c :: rest) || isSubOf needle rest

/-- Python `needle in hay` for strings. -/
def containsStr (hay needle : String) : Bool := isSubOf needle.data hay.data

/-- The rate-limit classification (lines 82 and 192): the exception text
contains `Too Many Requests` or `429`. -/
def isRateLimited (e : String) : Bool :=
  containsStr e "Too Many Requests" || containsStr e "429"

/-- Leftmost match of the pattern `status ([0-9]+)`: scan for an occurrence
of `status ` followed by at least one digit and return the maximal digit
run (the capture group). -/
def searchStatusCode : List Char → Option (List Char)
  | [] => none
  | c :: rest =>
    if ("status ".data).isPrefixOf (c :: rest) then
      let ds := ((c :: rest).drop 7).takeWhile Char.isDigit
      if ds.isEmpty then searchStatusCode rest else some ds
    else searchStatusCode rest

/-- HTTP-code extraction (lines 84-91): only attempted when `status` occurs
in the error text; `Unknown` when absent or when the regex does not match. -/
def extractHttpCode (e : String) : String :=
  if containsStr e "status" then
    match searchStatusCode e.data with
    | some ds => String.mk ds
    | none => "Unknown"
  else "Unknown"

/-- The shared retry loop of both fetchers (`for attempt in range(max_retries)`
with exponential-backoff sleeps and optional progress reports). `outcomes i`
is what the provider does on attempt `i` (raise, or return data); `attempt` is
the loop index and `fuel` the number of iterations left, so a top-level call
uses `attempt = 0, fuel = max_retries`. Besides the returned `FetchResult`,
the loop reifies its side effects: the list of `time.sleep` durations and the
list of progress fractions passed to `st.progress` (emitted only when a status
placeholder is supplied). -/
def retryAux {α β : Type} (body : α → FetchResult β)
    (rateLimitErr : String → FetchResult β) (otherErr : String → FetchResult β)
    (exhaustedErr : FetchResult β) (max_retries initial_delay : ℕ) (hasSink : Bool)
    (outcomes : ℕ → Except String α) : ℕ → ℕ → FetchResult β × List ℕ × List ℚ
  | _, 0 => (exhaustedErr, [], [])
  | attempt, fuel + 1 =>
    let waits : List ℕ := if 0 < attempt then [initial_delay * 2 ^ attempt] else []
    let progs : List ℚ :=
      if 0 < attempt ∧ hasSink then
        [min (99 / 100 : ℚ) ((attempt : ℚ) / (max_retries : ℚ))]
      else []
    match outcomes attempt with
    | .ok a => (body a, waits, progs)
    | .error e =>
      if isRateLimited e then
        if attempt = max_retries - 1 then (rateLimitErr e, waits, progs)
        else
          let r := retryAux body rateLimitErr otherErr exhaustedErr max_retries
            initial_delay hasSink outcomes (attempt + 1) fuel
          (r.1, waits ++ r.2.1, progs ++ r.2.2)
      else (otherErr e, waits, progs)

/-- Embedding of `get_stock_info` (data_fetcher.py lines 12-101), returning
the result together with the sleep-duration and progress-fraction traces. -/
def get_stock_info (ticker_symbol : String)
    (outcomes : ℕ → Except String (Option InfoDict))
    (max_retries initial_delay : ℕ) (hasSink : Bool) :
    FetchResult Quote × List ℕ × List ℚ :=
  retryAux (get_stock_info_body ticker_symbol)
    (fun e => .err
      ("We\x27re experiencing high traffic (HTTP " ++ extractHttpCode e ++
        "). Please try again in a few minutes.")
      ("Error: " ++ e ++ "\n\nYahoo Finance is rate limiting our requests."))
    (fun e => .err ("Failed to retrieve stock data for " ++ ticker_symbol) e)
    (.err "Maximum retries exceeded"
      "Failed to fetch stock data after multiple attempts due to persistent errors.")
    max_retries initial_delay hasSink outcomes 0 max_retries

/-- One raw row of a provider option table; the four dropna-relevant columns
are optional (`none` models `NaN`/missing). -/
structure RawOptRow where
  strike : Option ℚ
  lastPrice : Option ℚ
  bid : Option ℚ
  ask : Option ℚ
  volume : ℚ
  openInterest : ℚ
  impliedVolatility : ℚ
deriving DecidableEq

/-- The `(calls, puts)` pair returned by `stock.option_chain(date)`. -/
structure ChainPair where
  calls : List RawOptRow
  puts : List RawOptRow
deriving DecidableEq

/-- A row after the `optionType`/`expirationDate` column assignments. -/
structure TaggedRow where
  row : RawOptRow
  optionType : String
  expirationDate : String
deriving DecidableEq

/-- The `lastPrice > 0` collection-time filter; pandas comparisons with
`NaN` are false, so missing prices are dropped too. -/
def lastPricePos (r : RawOptRow) : Bool :=
  match r.lastPrice with
  | some v => decide (0 < v)
  | none => false

/-- The `dropna(subset of strike, lastPrice, bid, ask)` row predicate. -/
def hasRequired (t : TaggedRow) : Bool :=
  t.row.strike.isSome && t.row.lastPrice.isSome && t.row.bid.isSome && t.row.ask.isSome

/-- Successful-attempt body of `get_options_chain` (lines 135-182): given the
expiration dates and, per date, either the per-date exception (caught and
skipped by the inner `try`) or the `(calls, puts)` tables, collect the tagged,
`lastPrice`-filtered frames, concatenate, and drop incomplete rows. -/
def get_options_chain_body (ticker_symbol option_type : String)
    (dates : List (String × Except String ChainPair)) : FetchResult (List TaggedRow) :=
  if dates.isEmpty then
    .err ("No options expirations found for " ++ ticker_symbol)
      "No options data available for this ticker symbol."
  else
    let all_options : List (List TaggedRow) :=
      dates.foldr
        (fun p acc =>
          match p.2 with
          | .error _ => acc
          | .ok cp =>
            (if option_type = "call" ∨ option_type = "both" then
              [((cp.calls.map (fun r => TaggedRow.mk r "CALL" p.1)).filter
                (fun t => lastPricePos t.row))]
            else []) ++
            (if option_type = "put" ∨ option_type = "both" then
              [((cp.puts.map (fun r => TaggedRow.mk r "PUT" p.1)).filter
                (fun t => lastPricePos t.row))]
            else []) ++ acc)
        []
    if all_options.isEmpty then
      .err "No valid options data found"
        ("Could not retrieve any valid options data for " ++ ticker_symbol ++ ".")
    else
      let combined_options := (all_options.flatten).filter hasRequired
      if combined_options.isEmpty then
        .err "No valid options data after filtering"
          "Data was retrieved but contained no valid options after filtering."
      else .ok combined_options

/-- Embedding of `get_options_chain` (data_fetcher.py lines 103-214). -/
def get_options_chain (ticker_symbol option_type : String)
    (outcomes : ℕ → Except String (List (String × Except String ChainPair)))
    (max_retries initial_delay : ℕ) (hasSink : Bool) :
    FetchResult (List TaggedRow) × List ℕ × List ℚ :=
  retryAux (get_options_chain_body ticker_symbol option_type)
    (fun e => .err
      ("Data retrieval rate limit exceeded (HTTP " ++ extractHttpCode e ++ ")")
      ("Error: " ++ e ++
        "\n\nThe Yahoo Finance API is limiting our requests. Please try again in a few minutes."))
    (fun e => .err "Failed to retrieve options data" e)
    (.err "Maximum retries exceeded" "Failed to fetch options data after multiple attempts.")
    max_retries initial_delay hasSink outcomes 0 max_retries

/-! Helper lemmas shared by the claim theorems. -/

/-- Rounding to two decimals is monotone. -/
lemma round2_mono {a b : ℚ} (h : a ≤ b) : round2 a ≤ round2 b := by
  unfold round2
  have hr : round (a * 100) ≤ round (b * 100) := by
    rw [round_eq, round_eq]
    exact Int.floor_le_floor (by linarith)
  have hc : ((round (a * 100) : ℤ) : ℚ) ≤ ((round (b * 100) : ℤ) : ℚ) := by
    exact_mod_cast hr
  exact div_le_div_of_nonneg_right hc (by norm_num)

/-- On strictly positive inputs `calculate_annualized_roi` computes the
rounded annualized premium-over-strike yield. -/
lemma roi_pos_eq (p s : ℚ) (d : ℤ) (hp : 0 < p) (hs : 0 < s) (hd : 0 < d) :
    calculate_annualized_roi p s d = round2 (p / s * 100 * 365 / (d : ℚ)) := by
  unfold calculate_annualized_roi
  rw [if_neg]
  push_neg
  exact ⟨hp, hs, hd⟩

/-- The non-positive-input guard of `calculate_annualized_roi`. -/
lemma roi_guard (p s : ℚ) (d : ℤ) (h : p ≤ 0 ∨ s ≤ 0 ∨ d ≤ 0) :
    calculate_annualized_roi p s d = 0 := by
  unfold calculate_annualized_roi
  rw [if_pos h]

/-- `calculate_days_to_expiry` never returns a negative number. -/
lemma days_nonneg (s : String) (now : ℤ) : 0 ≤ calculate_days_to_expiry s now := by
  unfold calculate_days_to_expiry
  split
  · exact le_rfl
  · exact le_max_right _ _

/-- C2: for strictly positive premium, strike and days the result is
`round2 ((premium/strike)*100*365/days)` — in particular
`calculate_annualized_roi 1.50 150 30 = 12.17` — and any non-positive input
yields 0. -/
theorem roi_formula_guard_example :
    (∀ (p s : ℚ) (d : ℤ), 0 < p → 0 < s → 0 < d →
      calculate_annualized_roi p s d = round2 (p / s * 100 * 365 / (d : ℚ))) ∧
    (∀ (p s : ℚ) (d : ℤ), p ≤ 0 ∨ s ≤ 0 ∨ d ≤ 0 →
      calculate_annualized_roi p s d = 0) ∧
    calculate_annualized_roi (3/2) 150 30 = 1217/100 := by
  refine ⟨roi_pos_eq, roi_guard, ?_⟩
  set_option maxRecDepth 8000 in with_unfolding_all decide

/-- Witness for C2 at concrete inputs. -/
theorem roi_formula_guard_example_witness :
    calculate_annualized_roi 2 100 10 = round2 (2 / 100 * 100 * 365 / ((10 : ℤ) : ℚ)) ∧
    calculate_annualized_roi (-1) 5 5 = 0 :=
  ⟨roi_formula_guard_example.1 2 100 10 (by norm_num) (by norm_num) (by norm_num),
   roi_formula_guard_example.2.1 (-1) 5 5 (Or.inl (by norm_num))⟩

/-- C8: with all inputs strictly positive, `calculate_annualized_roi` is
monotone nondecreasing in the premium and nonincreasing in the strike and in
the days to expiry. -/
theorem roi_monotone :
    ∀ (p p' s s' : ℚ) (d d' : ℤ), 0 < p → 0 < s → 0 < d →
      (p ≤ p' → calculate_annualized_roi p s d ≤ calculate_annualized_roi p' s d) ∧
      (s ≤ s' → calculate_annualized_roi p s' d ≤ calculate_annualized_roi p s d) ∧
      (d ≤ d' → calculate_annualized_roi p s d' ≤ calculate_annualized_roi p s d) := by
  intro p p' s s' d d' hp hs hd
  have hdq : (0 : ℚ) < (d : ℚ) := by exact_mod_cast hd
  refine ⟨?_, ?_, ?_⟩
  · intro hpp
    rw [roi_pos_eq p s d hp hs hd, roi_pos_eq p' s d (lt_of_lt_of_le hp hpp) hs hd]
    apply round2_mono
    gcongr
  · intro hss
    rw [roi_pos_eq p s d hp hs hd, roi_pos_eq p s' d hp (lt_of_lt_of_le hs hss) hd]
    apply round2_mono
    gcongr
  · intro hdd
    have hd' : 0 < d' := lt_of_lt_of_le hd hdd
    have hdq' : (0 : ℚ) < (d' : ℚ) := by exact_mod_cast hd'
    rw [roi_pos_eq p s d hp hs hd, roi_pos_eq p s d' hp hs hd']
    apply round2_mono
    gcongr

/-- Witness for C8 at concrete inputs. -/
theorem roi_monotone_witness :
    calculate_annualized_roi 1 100 10 ≤ calculate_annualized_roi 2 100 10 ∧
    calculate_annualized_roi 1 200 10 ≤ calculate_annualized_roi 1 100 10 ∧
    calculate_annualized_roi 1 100 20 ≤ calculate_annualized_roi 1 100 10 :=
  ⟨(roi_monotone 1 2 100 200 10 20 (by norm_num) (by norm_num) (by norm_num)).1 (by norm_num),
   (roi_monotone 1 2 100 200 10 20 (by norm_num) (by norm_num) (by norm_num)).2.1 (by norm_num),
   (roi_monotone 1 2 100 200 10 20 (by norm_num) (by norm_num) (by norm_num)).2.2 (by norm_num)⟩

/-- C9: a `None` or empty options chain makes `process_options_data` return
the empty list (no error, no exception). -/
theorem empty_chain_empty_output :
    ∀ (price : ℚ) (now : ℤ),
      process_options_data none price now = [] ∧
      process_options_data (some []) price now = [] :=
  fun _ _ => ⟨rfl, rfl⟩

/-- A price source that is absent or zero is falsy. -/
lemma truthy_falsy {o : Option ℚ} (h : o = none ∨ o = some 0) : truthyQ o = false := by
  rcases h with h | h <;> simp [h, truthyQ]

/-- An absent price source is falsy. -/
@[simp] lemma truthyQ_none : truthyQ none = false := rfl

/-- C10: in the price-fallback chain of `get_stock_info`, an absent source and
a zero source are interchangeable (each is skipped), and when every source is
absent or zero the body returns the structured could-not-fetch-price error,
never a quote with price 0. -/
theorem price_fallback_spec :
    ∀ (t : String) (i : InfoDict),
      ((i.regularMarketPrice = none ∨ i.regularMarketPrice = some 0) →
        get_stock_info_body t (some i) =
          get_stock_info_body t (some { i with regularMarketPrice := none })) ∧
      ((i.currentPrice = none ∨ i.currentPrice = some 0) →
        get_stock_info_body t (some i) =
          get_stock_info_body t (some { i with currentPrice := none })) ∧
      ((i.previousClose = none ∨ i.previousClose = some 0) →
        get_stock_info_body t (some i) =
          get_stock_info_body t (some { i with previousClose := none })) ∧
      ((truthyQ i.regularMarketPrice = false ∧ truthyQ i.currentPrice = false ∧
          truthyQ i.previousClose = false) →
        get_stock_info_body t (some i) =
          .err ("Warning: Could not fetch price for " ++ t)
            "Price data is not available for this ticker symbol." ∧
        ∀ q : Quote, get_stock_info_body t (some i) ≠ .ok q) := by
  intro t i
  refine ⟨?_, ?_, ?_, ?_⟩
  · intro h
    simp [get_stock_info_body, pickPrice, truthy_falsy h]
  · intro h
    by_cases hr : truthyQ i.regularMarketPrice <;>
      simp [get_stock_info_body, pickPrice, truthy_falsy h, hr]
  · intro h
    by_cases hr : truthyQ i.regularMarketPrice <;>
      by_cases hc : truthyQ i.currentPrice <;>
        simp [get_stock_info_body, pickPrice, truthy_falsy h, hr, hc]
  · rintro ⟨h1, h2, h3⟩
    have hbody : get_stock_info_body t (some i) =
        .err ("Warning: Could not fetch price for " ++ t)
          "Price data is not available for this ticker symbol." := by
      simp [get_stock_info_body, pickPrice, h1, h2, h3]
    exact ⟨hbody, fun q hq => by rw [hbody] at hq; exact FetchResult.noConfusion hq⟩

/-- Witness for C10 at a concrete info dict. -/
theorem price_fallback_spec_witness :
    get_stock_info_body "ZZ" (some ⟨some 0, some 120, none, none, none, none⟩) =
      get_stock_info_body "ZZ" (some ⟨none, some 120, none, none, none, none⟩) ∧
    get_stock_info_body "ZZ" (some ⟨none, some 0, some 0, none, none, none⟩) =
      .err ("Warning: Could not fetch price for " ++ "ZZ")
        "Price data is not available for this ticker symbol." :=
  ⟨(price_fallback_spec "ZZ" ⟨some 0, some 120, none, none, none, none⟩).1
      (Or.inr rfl),
   ((price_fallback_spec "ZZ" ⟨none, some 0, some 0, none, none, none⟩).2.2.2
      ⟨rfl, by decide, by decide⟩).1⟩

/-- C5: `calculate_days_to_expiry` is nonnegative; it returns 0 on an
unparseable string; it returns 0 when the parsed date is today or in the
past relative to `now`; and for a date `N ≥ 1` calendar days in the future it
returns `N` or `N - 1` (day-granularity boundary rounding, depending on the
time of day of `now`). `now` is decomposed as `nowOrd` whole days plus
`t` microseconds within the day. -/
theorem days_to_expiry_spec (s : String) (nowOrd t : ℤ)
    (ht0 : 0 ≤ t) (ht1 : t < usPerDay) :
    0 ≤ calculate_days_to_expiry s (nowOrd * usPerDay + t) ∧
    (strptimeYmd s = none → calculate_days_to_expiry s (nowOrd * usPerDay + t) = 0) ∧
    (∀ y m d : ℕ, strptimeYmd s = some (y, m, d) → (toOrdinal y m d : ℤ) ≤ nowOrd →
      calculate_days_to_expiry s (nowOrd * usPerDay + t) = 0) ∧
    (∀ (y m d : ℕ) (N : ℤ), strptimeYmd s = some (y, m, d) → 1 ≤ N →
      (toOrdinal y m d : ℤ) = nowOrd + N →
      N - 1 ≤ calculate_days_to_expiry s (nowOrd * usPerDay + t) ∧
      calculate_days_to_expiry s (nowOrd * usPerDay + t) ≤ N) := by
  have hD : (0 : ℤ) < usPerDay := by norm_num [usPerDay]
  refine ⟨days_nonneg s _, ?_, ?_, ?_⟩
  · intro h
    unfold calculate_days_to_expiry
    rw [h]
  · intro y m d hparse hle
    unfold calculate_days_to_expiry
    rw [hparse]
    have hdiff : (toOrdinal y m d : ℤ) * usPerDay - (nowOrd * usPerDay + t) ≤ 0 := by
      have : (toOrdinal y m d : ℤ) * usPerDay ≤ nowOrd * usPerDay :=
        mul_le_mul_of_nonneg_right hle hD.le
      linarith
    have hfd : Int.fdiv ((toOrdinal y m d : ℤ) * usPerDay - (nowOrd * usPerDay + t))
        usPerDay ≤ 0 := by
      rw [Int.fdiv_eq_ediv _ hD.le]
      calc ((toOrdinal y m d : ℤ) * usPerDay - (nowOrd * usPerDay + t)) / usPerDay
          ≤ 0 / usPerDay := Int.ediv_le_ediv hD hdiff
        _ = 0 := Int.zero_ediv _
    exact max_eq_right hfd
  · intro y m d N hparse hN hord
    have hdiff : (toOrdinal y m d : ℤ) * usPerDay - (nowOrd * usPerDay + t)
        = N * usPerDay - t := by rw [hord]; ring
    have heq : calculate_days_to_expiry s (nowOrd * usPerDay + t)
        = max ((N * usPerDay - t) / usPerDay) 0 := by
      unfold calculate_days_to_expiry
      rw [hparse]
      show max (Int.fdiv ((toOrdinal y m d : ℤ) * usPerDay - (nowOrd * usPerDay + t))
        usPerDay) 0 = _
      rw [hdiff, Int.fdiv_eq_ediv _ hD.le]
    rw [heq]
    have hlow : N - 1 ≤ (N * usPerDay - t) / usPerDay := by
      rw [Int.le_ediv_iff_mul_le hD]
      nlinarith
    have hhigh : (N * usPerDay - t) / usPerDay ≤ N := by
      calc (N * usPerDay - t) / usPerDay ≤ (N * usPerDay) / usPerDay :=
            Int.ediv_le_ediv hD (by linarith)
        _ = N := Int.mul_ediv_cancel _ hD.ne.symm
    constructor
    · exact le_max_of_le_left hlow
    · exact max_le hhigh (by linarith)

/-- Witness for C5: an unparseable string, a past date, and a date seven days
in the future evaluated at five microseconds past midnight. -/
theorem days_to_expiry_spec_witness :
    calculate_days_to_expiry "garbage" (1000 * usPerDay + 5) = 0 ∧
    calculate_days_to_expiry "2025-01-10" ((toOrdinal 2025 1 12 : ℤ) * usPerDay + 5) = 0 ∧
    (7 - 1 ≤ calculate_days_to_expiry "2025-01-10" ((toOrdinal 2025 1 3 : ℤ) * usPerDay + 5) ∧
      calculate_days_to_expiry "2025-01-10" ((toOrdinal 2025 1 3 : ℤ) * usPerDay + 5) ≤ 7) :=
  ⟨(days_to_expiry_spec "garbage" 1000 5 (by norm_num) (by norm_num [usPerDay])).2.1
      (by decide),
   (days_to_expiry_spec "2025-01-10" (toOrdinal 2025 1 12 : ℤ) 5 (by norm_num)
      (by norm_num [usPerDay])).2.2.1 2025 1 10 (by decide) (by decide),
   (days_to_expiry_spec "2025-01-10" (toOrdinal 2025 1 3 : ℤ) 5 (by norm_num)
      (by norm_num [usPerDay])).2.2.2 2025 1 10 7 (by decide) (by norm_num) (by decide)⟩

/-- C3: every record emitted by `process_options_data` has strictly positive
annualized ROI and strictly positive days to expiry. -/
theorem processed_records_positive :
    ∀ (chain : Option (List OptionRow)) (price : ℚ) (now : ℤ)
      (r : AnalyticalRecord), r ∈ process_options_data chain price now →
      0 < r.annualizedRoi ∧ 0 < r.daysToExpiry := by
  intro chain price now r hr
  match chain with
  | none => simp [process_options_data] at hr
  | some rows =>
    simp only [process_options_data, List.mem_filterMap] at hr
    obtain ⟨row, _, hrow⟩ := hr
    unfold processRow at hrow
    split_ifs at hrow with h1 h2 h3 h4 h5
    rw [Option.some_inj] at hrow
    subst hrow
    refine ⟨h5, ?_⟩
    exact lt_of_le_of_ne (days_nonneg row.expirationDate now) (Ne.symm h2)

/-- Witness for C3: a PUT at strike 140 against price 150, bid 1 and ask 1.2,
expiring fifteen days after the reference midnight, is emitted with
ROI 17.38 and 15 days to expiry. -/
theorem processed_records_positive_witness :
    (0:ℚ) < (AnalyticalRecord.mk 140 "2025-06-20" 1 1 (6/5) 15 100 50 25 (869/50) "PUT").annualizedRoi ∧
    (0:ℤ) < (AnalyticalRecord.mk 140 "2025-06-20" 1 1 (6/5) 15 100 50 25 (869/50) "PUT").daysToExpiry :=
  processed_records_positive
    (some [OptionRow.mk "PUT" 140 "2025-06-20" 1 (6/5) 100 50 (1/4)]) 150
    ((toOrdinal 2025 6 5 : ℤ) * usPerDay)
    (AnalyticalRecord.mk 140 "2025-06-20" 1 1 (6/5) 15 100 50 25 (869/50) "PUT")
    (by set_option maxRecDepth 40000 in with_unfolding_all decide)

/-- C4: `process_options_data` never emits a PUT with strike above the current
price nor a CALL with strike below it, and the moneyness filter retains a
contract whose strike equals the current price, whatever its option type. -/
theorem moneyness_filter_bounds :
    ∀ (chain : Option (List OptionRow)) (price : ℚ) (now : ℤ),
      (∀ r ∈ process_options_data chain price now,
        (r.optionType = "PUT" → r.strikePrice ≤ price) ∧
        (r.optionType = "CALL" → price ≤ r.strikePrice)) ∧
      (∀ row : OptionRow, row.strike = price → moneySkip row price = false) := by
  intro chain price now
  constructor
  · intro r hr
    match chain with
    | none => simp [process_options_data] at hr
    | some rows =>
      simp only [process_options_data, List.mem_filterMap] at hr
      obtain ⟨row, _, hrow⟩ := hr
      unfold processRow at hrow
      split_ifs at hrow with h1 h2 h3 h4 h5
      rw [Option.some_inj] at hrow
      subst hrow
      rw [moneySkip, decide_eq_true_iff] at h1
      push_neg at h1
      constructor
      · intro hty
        exact h1.1 hty
      · intro hty
        exact h1.2 hty
  · intro row hrow
    rw [moneySkip, decide_eq_false_iff_not]
    rw [hrow]
    push_neg
    exact ⟨fun _ => le_rfl, fun _ => le_rfl⟩

/-- Witness for C4: the emitted PUT record of the sample chain has strike at
most the current price, and an at-the-money CALL row passes the filter. -/
theorem moneyness_filter_bounds_witness :
    (AnalyticalRecord.mk 140 "2025-06-20" 1 1 (6/5) 15 100 50 25 (869/50) "PUT").strikePrice ≤ 150 ∧
    moneySkip (OptionRow.mk "CALL" 150 "2025-06-20" 1 2 0 0 0) 150 = false :=
  ⟨((moneyness_filter_bounds
      (some [OptionRow.mk "PUT" 140 "2025-06-20" 1 (6/5) 100 50 (1/4)]) 150
      ((toOrdinal 2025 6 5 : ℤ) * usPerDay)).1
      (AnalyticalRecord.mk 140 "2025-06-20" 1 1 (6/5) 15 100 50 25 (869/50) "PUT")
      (by set_option maxRecDepth 40000 in with_unfolding_all decide)).1 rfl,
   (moneyness_filter_bounds none 150 0).2
      (OptionRow.mk "CALL" 150 "2025-06-20" 1 2 0 0 0) rfl⟩

/-- Skipping a block of rate-limited attempts: when the first `i` attempts
starting at `attempt` all raise rate-limited errors (and `i` more iterations
remain), the loop result is the result of resuming at `attempt + i`. -/
lemma retryAux_skip {α β : Type} (body : α → FetchResult β)
    (rl ot : String → FetchResult β) (ex : FetchResult β)
    (mr idelay : ℕ) (sink : Bool) (oc : ℕ → Except String α) :
    ∀ (i fuel attempt : ℕ), i < fuel → attempt + fuel = mr →
      (∀ j, j < i → ∃ e, oc (attempt + j) = Except.error e ∧ isRateLimited e = true) →
      (retryAux body rl ot ex mr idelay sink oc attempt fuel).1 =
        (retryAux body rl ot ex mr idelay sink oc (attempt + i) (fuel - i)).1 := by
  intro i
  induction i with
  | zero =>
    intro fuel attempt _ _ _
    simp
  | succ n ih =>
    intro fuel attempt hlt hsum hpre
    obtain ⟨f, rfl⟩ : ∃ f, fuel = f + 1 := ⟨fuel - 1, by omega⟩
    obtain ⟨e0, he0, hrl0⟩ := hpre 0 (Nat.succ_pos n)
    rw [Nat.add_zero] at he0
    have hne : attempt ≠ mr - 1 := by omega
    have hstep : (retryAux body rl ot ex mr idelay sink oc attempt (f + 1)).1 =
        (retryAux body rl ot ex mr idelay sink oc (attempt + 1) f).1 := by
      simp [retryAux, he0, hrl0, hne]
    rw [hstep, show attempt + (n + 1) = (attempt + 1) + n from by omega,
      show (f + 1) - (n + 1) = f - n from by omega]
    refine ih f (attempt + 1) (by omega) (by omega) ?_
    intro j hj
    obtain ⟨e, he, hr⟩ := hpre (j + 1) (by omega)
    exact ⟨e, by rw [show attempt + 1 + j = attempt + (j + 1) from by omega]; exact he, hr⟩

/-- After any number of leading rate-limited failures, a successful attempt
makes the whole loop return the body result for the fetched data. -/
lemma retryAux_run_ok {α β : Type} (body : α → FetchResult β)
    (rl ot : String → FetchResult β) (ex : FetchResult β)
    (mr idelay : ℕ) (sink : Bool) (oc : ℕ → Except String α)
    (i : ℕ) (hi : i < mr)
    (hpre : ∀ j, j < i → ∃ e, oc j = Except.error e ∧ isRateLimited e = true)
    (a : α) (hok : oc i = Except.ok a) :
    (retryAux body rl ot ex mr idelay sink oc 0 mr).1 = body a := by
  rw [retryAux_skip body rl ot ex mr idelay sink oc i mr 0 hi (by omega)
    (by simpa using hpre)]
  obtain ⟨k, hk⟩ : ∃ k, mr - i = k + 1 := ⟨mr - i - 1, by omega⟩
  rw [hk]
  simp [retryAux, Nat.zero_add, hok]

/-- After any number of leading rate-limited failures, a non-rate-limited
exception makes the whole loop return `otherErr` at once, regardless of how
many retries remain. -/
lemma retryAux_run_other {α β : Type} (body : α → FetchResult β)
    (rl ot : String → FetchResult β) (ex : FetchResult β)
    (mr idelay : ℕ) (sink : Bool) (oc : ℕ → Except String α)
    (i : ℕ) (hi : i < mr)
    (hpre : ∀ j, j < i → ∃ e, oc j = Except.error e ∧ isRateLimited e = true)
    (e : String) (herr : oc i = Except.error e) (hnrl : isRateLimited e = false) :
    (retryAux body rl ot ex mr idelay sink oc 0 mr).1 = ot e := by
  rw [retryAux_skip body rl ot ex mr idelay sink oc i mr 0 hi (by omega)
    (by simpa using hpre)]
  obtain ⟨k, hk⟩ : ∃ k, mr - i = k + 1 := ⟨mr - i - 1, by omega⟩
  rw [hk]
  simp [retryAux, Nat.zero_add, herr, hnrl]

/-- When every attempt raises a rate-limited error, the loop runs all
`mr` attempts and returns `rateLimitErr` applied to the last error. -/
lemma retryAux_run_exhaust {α β : Type} (body : α → FetchResult β)
    (rl ot : String → FetchResult β) (ex : FetchResult β)
    (mr idelay : ℕ) (sink : Bool) (oc : ℕ → Except String α)
    (hmr : 1 ≤ mr) (es : ℕ → String)
    (hall : ∀ j, j < mr → oc j = Except.error (es j) ∧ isRateLimited (es j) = true) :
    (retryAux body rl ot ex mr idelay sink oc 0 mr).1 = rl (es (mr - 1)) := by
  rw [retryAux_skip body rl ot ex mr idelay sink oc (mr - 1) mr 0 (by omega) (by omega)
    (fun j hj => ⟨es j, by simpa using (hall j (by omega)).1, (hall j (by omega)).2⟩)]
  rw [show mr - (mr - 1) = 0 + 1 from by omega]
  obtain ⟨he, hrl⟩ := hall (mr - 1) (by omega)
  simp [retryAux, Nat.zero_add, he, hrl]

/-- C6: in both fetchers, rate-limited exceptions (text containing
`Too Many Requests` or `429`) are retried — after any run of rate-limited
failures the next attempt really executes — while any other exception returns
the structured error result immediately, independent of the outcomes of all
later attempts; exhausting all `mr` rate-limited attempts returns a structured
error whose text embeds the HTTP code extracted from the final error text,
and extraction falls back to `Unknown` when the text lacks `status` or the
`status NNN` pattern does not match. -/
theorem fetch_error_discipline :
    ∀ (t ty : String) (mr idelay : ℕ) (sink : Bool)
      (oc1 : ℕ → Except String (Option InfoDict))
      (oc2 : ℕ → Except String (List (String × Except String ChainPair)))
      (es : ℕ → String),
      (∀ i info, i < mr →
        (∀ j, j < i → ∃ e, oc1 j = Except.error e ∧ isRateLimited e = true) →
        oc1 i = Except.ok info →
        (get_stock_info t oc1 mr idelay sink).1 = get_stock_info_body t info) ∧
      (1 ≤ mr →
        (∀ j, j < mr → oc1 j = Except.error (es j) ∧ isRateLimited (es j) = true) →
        (get_stock_info t oc1 mr idelay sink).1 =
          FetchResult.err
            ("We\x27re experiencing high traffic (HTTP " ++
              extractHttpCode (es (mr - 1)) ++ "). Please try again in a few minutes.")
            ("Error: " ++ es (mr - 1) ++
              "\n\nYahoo Finance is rate limiting our requests.")) ∧
      (∀ i e, i < mr →
        (∀ j, j < i → ∃ e', oc1 j = Except.error e' ∧ isRateLimited e' = true) →
        oc1 i = Except.error e → isRateLimited e = false →
        (get_stock_info t oc1 mr idelay sink).1 =
          FetchResult.err ("Failed to retrieve stock data for " ++ t) e) ∧
      (∀ i dat, i < mr →
        (∀ j, j < i → ∃ e, oc2 j = Except.error e ∧ isRateLimited e = true) →
        oc2 i = Except.ok dat →
        (get_options_chain t ty oc2 mr idelay sink).1 = get_options_chain_body t ty dat) ∧
      (1 ≤ mr →
        (∀ j, j < mr → oc2 j = Except.error (es j) ∧ isRateLimited (es j) = true) →
        (get_options_chain t ty oc2 mr idelay sink).1 =
          FetchResult.err
            ("Data retrieval rate limit exceeded (HTTP " ++
              extractHttpCode (es (mr - 1)) ++ ")")
            ("Error: " ++ es (mr - 1) ++
              "\n\nThe Yahoo Finance API is limiting our requests. Please try again in a few minutes.")) ∧
      (∀ i e, i < mr →
        (∀ j, j < i → ∃ e', oc2 j = Except.error e' ∧ isRateLimited e' = true) →
        oc2 i = Except.error e → isRateLimited e = false →
        (get_options_chain t ty oc2 mr idelay sink).1 =
          FetchResult.err "Failed to retrieve options data" e) ∧
      (∀ e, containsStr e "status" = false ∨ searchStatusCode e.data = none →
        extractHttpCode e = "Unknown") := by
  intro t ty mr idelay sink oc1 oc2 es
  refine ⟨?_, ?_, ?_, ?_, ?_, ?_, ?_⟩
  · intro i info hi hpre hok
    exact retryAux_run_ok _ _ _ _ mr idelay sink oc1 i hi hpre info hok
  · intro hmr hall
    exact retryAux_run_exhaust _ _ _ _ mr idelay sink oc1 hmr es hall
  · intro i e hi hpre herr hnrl
    exact retryAux_run_other _ _ _ _ mr idelay sink oc1 i hi hpre e herr hnrl
  · intro i dat hi hpre hok
    exact retryAux_run_ok _ _ _ _ mr idelay sink oc2 i hi hpre dat hok
  · intro hmr hall
    exact retryAux_run_exhaust _ _ _ _ mr idelay sink oc2 hmr es hall
  · intro i e hi hpre herr hnrl
    exact retryAux_run_other _ _ _ _ mr idelay sink oc2 i hi hpre e herr hnrl
  · intro e he
    rcases he with h | h
    · simp [extractHttpCode, h]
    · by_cases hc : containsStr e "status" <;> simp [extractHttpCode, hc, h]

/-- Witness for C6: a permanently rate-limited run exhausts all five attempts
and embeds the extracted code 429; a non-rate-limited failure on the first
attempt returns the other-error result immediately. -/
theorem fetch_error_discipline_witness :
    (get_stock_info "AAPL" (fun _ => Except.error "response status 429: Too Many Requests")
        5 10 false).1 =
      FetchResult.err
        ("We\x27re experiencing high traffic (HTTP " ++
          extractHttpCode "response status 429: Too Many Requests" ++
          "). Please try again in a few minutes.")
        ("Error: " ++ "response status 429: Too Many Requests" ++
          "\n\nYahoo Finance is rate limiting our requests.") ∧
    (get_stock_info "AAPL" (fun _ => Except.error "boom") 5 10 false).1 =
      FetchResult.err ("Failed to retrieve stock data for " ++ "AAPL") "boom" ∧
    extractHttpCode "429 Too Many Requests" = "Unknown" :=
  ⟨(fetch_error_discipline "AAPL" "both" 5 10 false
      (fun _ => Except.error "response status 429: Too Many Requests")
      (fun _ => Except.error "x")
      (fun _ => "response status 429: Too Many Requests")).2.1
      (by norm_num) (fun j hj => ⟨rfl, by decide⟩),
   (fetch_error_discipline "AAPL" "both" 5 10 false
      (fun _ => Except.error "boom") (fun _ => Except.error "x")
      (fun _ => "boom")).2.2.1 0 "boom" (by norm_num)
      (fun j hj => absurd hj (Nat.not_lt_zero j)) rfl (by decide),
   (fetch_error_discipline "AAPL" "both" 5 10 false
      (fun _ => Except.error "boom") (fun _ => Except.error "x")
      (fun _ => "boom")).2.2.2.2.2.2 "429 Too Many Requests"
      (Or.inl (by decide))⟩

/-- Under continuous rate limiting with a status placeholder supplied, the
retry loop starting at `attempt` with `fuel` iterations left reports the
progress fraction `min 0.99 (i / max_retries)` for every visited loop index
`i` other than index 0, in order. -/
lemma retryAux_progs_allrl {α β : Type} (body : α → FetchResult β)
    (rl ot : String → FetchResult β) (ex : FetchResult β)
    (mr idelay : ℕ) (e : String) (he : isRateLimited e = true) :
    ∀ fuel attempt, 0 < fuel → attempt + fuel = mr →
      (retryAux body rl ot ex mr idelay true (fun _ => Except.error e) attempt fuel).2.2 =
        ((List.range' attempt fuel).filter (fun i => decide (0 < i))).map
          (fun i => min (99 / 100 : ℚ) ((i : ℚ) / (mr : ℚ))) := by
  intro fuel
  induction fuel with
  | zero =>
    intro attempt hpos _
    exact absurd hpos (lt_irrefl 0)
  | succ f ih =>
    intro a hpos hsum
    by_cases hf : f = 0
    · subst hf
      have ha : a = mr - 1 := by omega
      by_cases h1 : 1 < mr
      · have h1' : 0 < mr - 1 := by omega
        simp [retryAux, he, ha, List.range'_one, h1']
      · have h1' : mr - 1 = 0 := by omega
        simp [retryAux, he, ha, List.range'_one, h1']
    · have ha : a ≠ mr - 1 := by omega
      have hrec := ih (a + 1) (by omega) (by omega)
      by_cases h0 : 0 < a
      · simp [retryAux, he, ha, hrec, List.range'_succ, h0]
      · have ha0 : a = 0 := by omega
        subst ha0
        simp [retryAux, he, ha, hrec, List.range'_succ]

/-- Every progress fraction ever emitted by the retry loop is
`min 0.99 (i / max_retries)` for some loop index `i ≥ 1`. -/
lemma retryAux_progs_shape {α β : Type} (body : α → FetchResult β)
    (rl ot : String → FetchResult β) (ex : FetchResult β)
    (mr idelay : ℕ) (sink : Bool) (oc : ℕ → Except String α) :
    ∀ fuel attempt (x : ℚ),
      x ∈ (retryAux body rl ot ex mr idelay sink oc attempt fuel).2.2 →
      ∃ i : ℕ, 1 ≤ i ∧ x = min (99 / 100 : ℚ) ((i : ℚ) / (mr : ℚ)) := by
  intro fuel
  induction fuel with
  | zero =>
    intro a x hx
    simp [retryAux] at hx
  | succ f ih =>
    intro a x hx
    have hp : ∀ y : ℚ,
        y ∈ (if 0 < a ∧ sink = true then
              [min (99 / 100 : ℚ) ((a : ℚ) / (mr : ℚ))] else ([] : List ℚ)) →
        ∃ i : ℕ, 1 ≤ i ∧ y = min (99 / 100 : ℚ) ((i : ℚ) / (mr : ℚ)) := by
      intro y hy
      split_ifs at hy with h
      · rw [List.mem_singleton] at hy
        exact ⟨a, h.1, hy⟩
      · exact absurd hy (List.not_mem_nil y)
    cases hoc : oc a with
    | ok v =>
      simp only [retryAux, hoc] at hx
      exact hp x hx
    | error e =>
      by_cases hrl : isRateLimited e
      · by_cases hla : a = mr - 1
        · simp only [retryAux, hoc, hrl, if_true] at hx
          rw [if_pos hla] at hx
          exact hp x hx
        · simp only [retryAux, hoc, hrl, if_true, if_neg hla] at hx
          rw [List.mem_append] at hx
          rcases hx with hx | hx
          · exact hp x hx
          · exact ih (a + 1) x hx
      · have hrl' : isRateLimited e = false := by simpa using hrl
        simp only [retryAux, hoc, hrl', Bool.false_eq_true, if_false] at hx
        exact hp x hx

set_option maxRecDepth 40000 in
/-- C1 evaluated at the failing input: with `initial_delay = 10` and
`max_retries = 5` under continuous rate limiting, both fetchers sleep
`[20, 40, 80, 160]` seconds before attempts 2-5 — the code computes
`initial_delay * 2 ** attempt` with the 0-based loop index — and not the
`[10, 20, 40, 80]` schedule the claim (and the code's own backoff comment)
describes. -/
theorem backoff_schedule_eval :
    (get_stock_info "TICK" (fun _ => Except.error "429") 5 10 false).2.1 =
      [20, 40, 80, 160] ∧
    (get_options_chain "TICK" "both" (fun _ => Except.error "429") 5 10 false).2.1 =
      [20, 40, 80, 160] ∧
    (get_stock_info "TICK" (fun _ => Except.error "429") 5 10 false).2.1 ≠
      [10, 20, 40, 80] ∧
    (get_options_chain "TICK" "both" (fun _ => Except.error "429") 5 10 false).2.1 ≠
      [10, 20, 40, 80] := by
  with_unfolding_all decide

set_option maxRecDepth 40000 in
/-- C7 counterexample: under continuous rate limiting with `max_retries = 5`
and a progress sink supplied, the reported fraction sequence is not
`[0, 0.2, 0.4, 0.6, 0.8]` — no fraction at all (in particular not 0) is
reported on the first attempt. -/
theorem progress_trace_cex :
    ¬((get_stock_info "TICK" (fun _ => Except.error "429") 5 10 true).2.2 =
        [0, 1/5, 2/5, 3/5, 4/5]) := by
  with_unfolding_all decide

/-- C7 (amended): with a progress sink supplied, every fraction either fetcher
emits is `min 0.99 (attemptIndex / maxRetries)` for some retry index `≥ 1`,
hence strictly below 1; under continuous rate limiting with `max_retries = 5`
the reported sequence is `[0.2, 0.4, 0.6, 0.8]` (before attempts 2-5); and a
call whose first attempt succeeds reports no fraction at all. -/
theorem progress_fractions_spec :
    ∀ (t ty e : String) (oc1 : ℕ → Except String (Option InfoDict))
      (oc2 : ℕ → Except String (List (String × Except String ChainPair)))
      (mr idelay : ℕ) (sink : Bool),
      (isRateLimited e = true →
        (get_stock_info t (fun _ => Except.error e) 5 idelay true).2.2 =
          [1/5, 2/5, 3/5, 4/5] ∧
        (get_options_chain t ty (fun _ => Except.error e) 5 idelay true).2.2 =
          [1/5, 2/5, 3/5, 4/5]) ∧
      (∀ x ∈ (get_stock_info t oc1 mr idelay sink).2.2,
        ∃ i : ℕ, 1 ≤ i ∧ x = min (99/100 : ℚ) ((i : ℚ) / ((mr : ℕ) : ℚ)) ∧ x < 1) ∧
      (∀ x ∈ (get_options_chain t ty oc2 mr idelay sink).2.2,
        ∃ i : ℕ, 1 ≤ i ∧ x = min (99/100 : ℚ) ((i : ℚ) / ((mr : ℕ) : ℚ)) ∧ x < 1) ∧
      (∀ info, oc1 0 = Except.ok info →
        (get_stock_info t oc1 mr idelay sink).2.2 = []) := by
  intro t ty e oc1 oc2 mr idelay sink
  refine ⟨?_, ?_, ?_, ?_⟩
  · intro he
    constructor
    · unfold get_stock_info
      rw [retryAux_progs_allrl _ _ _ _ 5 idelay e he 5 0 (by norm_num) (by norm_num)]
      with_unfolding_all decide
    · unfold get_options_chain
      rw [retryAux_progs_allrl _ _ _ _ 5 idelay e he 5 0 (by norm_num) (by norm_num)]
      with_unfolding_all decide
  · intro x hx
    obtain ⟨i, h1, h2⟩ := retryAux_progs_shape _ _ _ _ mr idelay sink oc1 mr 0 x hx
    refine ⟨i, h1, h2, ?_⟩
    rw [h2]
    calc min (99/100 : ℚ) ((i : ℚ) / ((mr : ℕ) : ℚ)) ≤ 99/100 := min_le_left _ _
      _ < 1 := by norm_num
  · intro x hx
    obtain ⟨i, h1, h2⟩ := retryAux_progs_shape _ _ _ _ mr idelay sink oc2 mr 0 x hx
    refine ⟨i, h1, h2, ?_⟩
    rw [h2]
    calc min (99/100 : ℚ) ((i : ℚ) / ((mr : ℕ) : ℚ)) ≤ 99/100 := min_le_left _ _
      _ < 1 := by norm_num
  · intro info h
    unfold get_stock_info
    cases mr with
    | zero => simp [retryAux]
    | succ m => simp [retryAux, h]

set_option maxRecDepth 40000 in
/-- Witness for C7 at concrete runs. -/
theorem progress_fractions_spec_witness :
    (get_stock_info "T" (fun _ => Except.error "429") 5 10 true).2.2 =
      [1/5, 2/5, 3/5, 4/5] ∧
    (∃ i : ℕ, 1 ≤ i ∧ (1/5 : ℚ) = min (99/100 : ℚ) ((i : ℚ) / ((5 : ℕ) : ℚ)) ∧
      (1/5 : ℚ) < 1) ∧
    (get_stock_info "T" (fun _ => Except.ok none) 5 10 true).2.2 = [] :=
  ⟨((progress_fractions_spec "T" "both" "429" (fun _ => Except.error "429")
      (fun _ => Except.error "429") 5 10 true).1 (by decide)).1,
   (progress_fractions_spec "T" "both" "429" (fun _ => Except.error "429")
      (fun _ => Except.error "429") 5 10 true).2.1 (1/5)
      (by with_unfolding_all decide),
   (progress_fractions_spec "T" "both" "x" (fun _ => Except.ok none)
      (fun _ => Except.error "429") 5 10 true).2.2.2 none rfl⟩
